import Mathlib

/-!
Verification development for the GoMeet cost-calculation script
(`COST_CALCULATIONS.py`).  The Python program is a single class
`GoMeetCostCalculator` holding literal configuration tables, a family of
pure `calculate_*` cost functions, and report generators.  We embed it
shallowly: Python numbers become `ℚ` (all arithmetic in the script is
exact over the literals involved), dictionaries of fixed shape become
structures, dictionaries that are iterated become association lists, and
dictionary lookups that can raise `KeyError` become `Option`-valued
functions.  Python's `int(...)` truncation is modelled by `pyint`.
-/

namespace GoMeet

/-- Python `int(q)`: truncation toward zero, as a rational. -/
def pyint (q : ℚ) : ℚ := ((if 0 ≤ q then ⌊q⌋ else ⌈q⌉ : ℤ) : ℚ)

/-- A `for` loop that applies a fallible body to each element in order,
collecting the results; the first failure (Python exception) aborts. -/
def forEachOpt (f : α → Option β) : List α → Option (List β)
  | [] => some []
  | x :: xs => do
    let y ← f x
    let ys ← forEachOpt f xs
    some (y :: ys)

/-! ## Configuration tables (the literals of `__init__`) -/

/-- One row of `pricing['instances']`. -/
structure InstanceSpec where
  vcpu : ℚ
  ram : ℚ
  price : ℚ
deriving DecidableEq, Inhabited

/-- Embeds `pricing['storage']['bandwidth']`. -/
structure BandwidthPricing where
  first_100tb : ℚ
  next_400tb : ℚ
  above_500tb : ℚ
deriving DecidableEq, Inhabited

/-- Embeds `pricing['storage']`. -/
structure StoragePricing where
  block_storage : ℚ
  bandwidth : BandwidthPricing
deriving DecidableEq, Inhabited

/-- Embeds `self.pricing`. -/
structure Pricing where
  instances : List (String × InstanceSpec)
  storage : StoragePricing
  load_balancer : ℚ
  cdn : ℚ
deriving DecidableEq, Inhabited

/-- Embeds `infrastructure['livekit_sfu']`. -/
structure LiveKitCfg where
  nodes : ℕ
  instance_type : String
  storage_gb : ℚ
  auto_scaling_min : ℕ
  auto_scaling_max : ℕ
deriving DecidableEq, Inhabited

/-- One API service entry: `{'replicas': …, 'instance_type': …}`. -/
structure ReplicaCfg where
  replicas : ℕ
  instance_type : String
deriving DecidableEq, Inhabited

/-- A node group without storage (`pgbouncer`, `traefik`). -/
structure NodeCfg where
  nodes : ℕ
  instance_type : String
deriving DecidableEq, Inhabited

/-- A node group with storage (`primary`, `replicas`, `masters`). -/
structure StorageNodeCfg where
  nodes : ℕ
  instance_type : String
  storage_gb : ℚ
deriving DecidableEq, Inhabited

/-- Embeds `infrastructure['database']`. -/
structure DatabaseCfg where
  primary : StorageNodeCfg
  replicas : StorageNodeCfg
  pgbouncer : NodeCfg
deriving DecidableEq, Inhabited

/-- Embeds `infrastructure['redis']`. -/
structure RedisCfg where
  masters : StorageNodeCfg
  replicas : StorageNodeCfg
deriving DecidableEq, Inhabited

/-- Embeds `infrastructure['gateway']`. -/
structure GatewayCfg where
  traefik : NodeCfg
  load_balancers : ℕ
deriving DecidableEq, Inhabited

/-- One monitoring component; `calculate_monitoring_cost` tests the
presence of the `nodes` and `storage_gb` keys, so they are `Option`s. -/
structure MonCompCfg where
  nodes : Option ℕ
  instance_type : String
  storage_gb : Option ℚ
deriving DecidableEq, Inhabited

/-- Embeds `self.infrastructure`. -/
structure Infrastructure where
  livekit_sfu : LiveKitCfg
  api_services : List (String × ReplicaCfg)
  database : DatabaseCfg
  redis : RedisCfg
  gateway : GatewayCfg
  monitoring : List (String × MonCompCfg)
deriving DecidableEq, Inhabited

/-- One row of `operational_costs['team_salaries']`. -/
structure RoleCfg where
  count : ℚ
  monthly_salary : ℚ
deriving DecidableEq, Inhabited

/-- Embeds `operational_costs['team_salaries']` (two fixed keys). -/
structure TeamSalaries where
  backend_dev : RoleCfg
  devops : RoleCfg
deriving DecidableEq, Inhabited

/-- Iteration order of the `team_salaries` dict. -/
def TeamSalaries.toList (t : TeamSalaries) : List (String × RoleCfg) :=
  [("backend_dev", t.backend_dev), ("devops", t.devops)]

/-- Embeds `self.operational_costs`. -/
structure OperationalCfg where
  team_salaries : TeamSalaries
  marketing_sales : ℚ
  operations_support : ℚ
deriving DecidableEq, Inhabited

/-- Embeds `self.bandwidth_requirements`. -/
structure BandwidthReq where
  participants_per_meeting : ℚ
  concurrent_meetings : ℚ
  active_speakers_ratio : ℚ
  video_bitrate_mbps : ℚ
  audio_bitrate_kbps : ℚ
  peak_hours_per_day : ℚ
  days_per_month : ℚ
  overhead_factor : ℚ
deriving DecidableEq, Inhabited

/-- Embeds `self.storage_requirements`. -/
structure StorageReq where
  video_bitrate_mbps : ℚ
  participants_per_meeting : ℚ
  avg_meeting_duration_hours : ℚ
  concurrent_meetings : ℚ
  compression_ratio : ℚ
  hot_storage_days : ℚ
  cold_storage_cost_per_gb : ℚ
deriving DecidableEq, Inhabited

/-- The state of a `GoMeetCostCalculator`: its five configuration tables. -/
structure Calculator where
  pricing : Pricing
  infrastructure : Infrastructure
  operational_costs : OperationalCfg
  bandwidth_requirements : BandwidthReq
  storage_requirements : StorageReq
deriving DecidableEq, Inhabited

/-- The calculator built by `GoMeetCostCalculator.__init__` (all literals). -/
def defaultCalculator : Calculator where
  pricing :=
    { instances :=
        [ ("large",  { vcpu := 16, ram := 64, price := 334 })
        , ("medium", { vcpu := 8,  ram := 32, price := 167 })
        , ("small",  { vcpu := 4,  ram := 16, price := 84 })
        , ("xsmall", { vcpu := 2,  ram := 8,  price := 42 })
        , ("micro",  { vcpu := 1,  ram := 4,  price := 21 }) ]
      storage :=
        { block_storage := 0.10
          bandwidth := { first_100tb := 0.01, next_400tb := 0.009, above_500tb := 0.008 } }
      load_balancer := 20
      cdn := 0.02 }
  infrastructure :=
    { livekit_sfu :=
        { nodes := 25, instance_type := "large", storage_gb := 200
          auto_scaling_min := 15, auto_scaling_max := 50 }
      api_services :=
        [ ("auth_service",      { replicas := 8,  instance_type := "small" })
        , ("meeting_service",   { replicas := 12, instance_type := "small" })
        , ("signaling_service", { replicas := 25, instance_type := "medium" })
        , ("chat_service",      { replicas := 10, instance_type := "xsmall" })
        , ("turn_service",      { replicas := 8,  instance_type := "xsmall" }) ]
      database :=
        { primary  := { nodes := 1, instance_type := "large", storage_gb := 2000 }
          replicas := { nodes := 3, instance_type := "large", storage_gb := 2000 }
          pgbouncer := { nodes := 6, instance_type := "xsmall" } }
      redis :=
        { masters  := { nodes := 6, instance_type := "medium", storage_gb := 500 }
          replicas := { nodes := 6, instance_type := "medium", storage_gb := 500 } }
      gateway :=
        { traefik := { nodes := 6, instance_type := "small" }
          load_balancers := 3 }
      monitoring :=
        [ ("prometheus",   { nodes := some 2, instance_type := "medium", storage_gb := some 500 })
        , ("grafana",      { nodes := some 3, instance_type := "xsmall", storage_gb := some 50 })
        , ("alertmanager", { nodes := some 2, instance_type := "micro",  storage_gb := some 20 }) ] }
  operational_costs :=
    { team_salaries :=
        { backend_dev := { count := 2, monthly_salary := 5000 }
          devops := { count := 1, monthly_salary := 5000 } }
      marketing_sales := 5000
      operations_support := 3000 }
  bandwidth_requirements :=
    { participants_per_meeting := 500
      concurrent_meetings := 100
      active_speakers_ratio := 0.1
      video_bitrate_mbps := 2
      audio_bitrate_kbps := 64
      peak_hours_per_day := 8
      days_per_month := 30
      overhead_factor := 1.3 }
  storage_requirements :=
    { video_bitrate_mbps := 2
      participants_per_meeting := 500
      avg_meeting_duration_hours := 2
      concurrent_meetings := 100
      compression_ratio := 0.3
      hot_storage_days := 30
      cold_storage_cost_per_gb := 0.004 }

/-! ## Result dictionaries -/

/-- Result of `calculate_instance_cost`. -/
structure InstanceCost where
  instance_type : String
  nodes : ℕ
  vcpu_total : ℚ
  ram_total_gb : ℚ
  monthly_cost : ℚ
  annual_cost : ℚ
deriving DecidableEq, Inhabited

/-- Result of `calculate_storage_cost`. -/
structure StorageCost where
  storage_gb : ℚ
  monthly_cost : ℚ
  annual_cost : ℚ
deriving DecidableEq, Inhabited

/-! ## The elementary cost functions -/

/-- Embeds `calculate_instance_cost`: a lookup in `pricing['instances']`
(`KeyError` on a missing type becomes `none`), then unit arithmetic. -/
def calculate_instance_cost (p : Pricing) (instance_type : String) (nodes : ℕ) :
    Option InstanceCost :=
  (List.lookup instance_type p.instances).map fun inst =>
    { instance_type := instance_type
      nodes := nodes
      vcpu_total := (nodes : ℚ) * inst.vcpu
      ram_total_gb := (nodes : ℚ) * inst.ram
      monthly_cost := (nodes : ℚ) * inst.price
      annual_cost := ((nodes : ℚ) * inst.price) * 12 }

/-- Embeds `calculate_storage_cost`. -/
def calculate_storage_cost (p : Pricing) (storage_gb : ℚ) : StorageCost :=
  let monthly := storage_gb * p.storage.block_storage
  { storage_gb := storage_gb
    monthly_cost := monthly
    annual_cost := monthly * 12 }

/-! ## Tiered bandwidth pricing (the `if/elif/else` of
`calculate_bandwidth_cost`, as a function of `monthly_bandwidth_tb`) -/

/-- First branch of the tiered pricing (`monthly_bandwidth_tb <= 100`). -/
def bandwidthTier1 (bw : BandwidthPricing) (t : ℚ) : ℚ :=
  t * 1024 * bw.first_100tb

/-- Second branch (`elif monthly_bandwidth_tb <= 500`). -/
def bandwidthTier2 (bw : BandwidthPricing) (t : ℚ) : ℚ :=
  100 * 1024 * bw.first_100tb + (t - 100) * 1024 * bw.next_400tb

/-- Third branch (`else`). -/
def bandwidthTier3 (bw : BandwidthPricing) (t : ℚ) : ℚ :=
  100 * 1024 * bw.first_100tb + 400 * 1024 * bw.next_400tb + (t - 500) * 1024 * bw.above_500tb

/-- The tier dispatch of `calculate_bandwidth_cost` (lines 349-361). -/
def tieredBandwidthCost (bw : BandwidthPricing) (t : ℚ) : ℚ :=
  if t ≤ 100 then bandwidthTier1 bw t
  else if t ≤ 500 then bandwidthTier2 bw t
  else bandwidthTier3 bw t

/-- The three-branch piecewise-linear function as the specification words
it, with the literal prices 0.01 / 0.009 / 0.008 inlined. -/
def specBandwidthPiecewise (t : ℚ) : ℚ :=
  if t ≤ 100 then t * 1024 * 0.01
  else if t ≤ 500 then 100 * 1024 * 0.01 + (t - 100) * 1024 * 0.009
  else 100 * 1024 * 0.01 + 400 * 1024 * 0.009 + (t - 500) * 1024 * 0.008

/-! ## Component cost functions -/

/-- Result of `calculate_livekit_sfu_cost`. -/
structure LiveKitCost where
  component : String
  base_cost : InstanceCost
  storage_cost : StorageCost
  auto_scaling_buffer : ℚ
  total_monthly : ℚ
  total_annual : ℚ
deriving DecidableEq, Inhabited

/-- Embeds `calculate_livekit_sfu_cost`. -/
def calculate_livekit_sfu_cost (c : Calculator) : Option LiveKitCost := do
  let cfg := c.infrastructure.livekit_sfu
  let base ← calculate_instance_cost c.pricing cfg.instance_type cfg.nodes
  let storage := calculate_storage_cost c.pricing (cfg.storage_gb * (cfg.nodes : ℚ))
  let buffer := base.monthly_cost * 0.5
  let total := base.monthly_cost + storage.monthly_cost + buffer
  some { component := "LiveKit SFU"
         base_cost := base
         storage_cost := storage
         auto_scaling_buffer := buffer
         total_monthly := total
         total_annual := total * 12 }

/-- Result of `calculate_api_services_cost`; each service's cost dict is
paired with its name (the `cost['service'] = service_name` line). -/
structure ApiServicesCost where
  component : String
  services : List (String × InstanceCost)
  total_monthly : ℚ
  total_annual : ℚ
deriving DecidableEq, Inhabited

/-- Embeds `calculate_api_services_cost`. -/
def calculate_api_services_cost (c : Calculator) : Option ApiServicesCost := do
  let services ← forEachOpt (fun item =>
    (calculate_instance_cost c.pricing item.2.instance_type item.2.replicas).map
      fun cost => (item.1, cost)) c.infrastructure.api_services
  let total := (services.map fun s => s.2.monthly_cost).sum
  some { component := "API Services"
         services := services
         total_monthly := total
         total_annual := total * 12 }

/-- Result of `calculate_database_cost`. -/
structure DatabaseCost where
  component : String
  primary_cost : InstanceCost
  replicas_cost : InstanceCost
  pgbouncer_cost : InstanceCost
  storage_cost : StorageCost
  total_monthly : ℚ
  total_annual : ℚ
deriving DecidableEq, Inhabited

/-- Embeds `calculate_database_cost`.  Note that the primary's storage is counted
once while the replicas' storage is multiplied by the replica node count. -/
def calculate_database_cost (c : Calculator) : Option DatabaseCost := do
  let cfg := c.infrastructure.database
  let primary ← calculate_instance_cost c.pricing cfg.primary.instance_type cfg.primary.nodes
  let replicas ← calculate_instance_cost c.pricing cfg.replicas.instance_type cfg.replicas.nodes
  let pgbouncer ← calculate_instance_cost c.pricing cfg.pgbouncer.instance_type cfg.pgbouncer.nodes
  let total_storage := cfg.primary.storage_gb + cfg.replicas.storage_gb * (cfg.replicas.nodes : ℚ)
  let storage := calculate_storage_cost c.pricing total_storage
  let total := primary.monthly_cost + replicas.monthly_cost + pgbouncer.monthly_cost +
    storage.monthly_cost
  some { component := "Database Layer"
         primary_cost := primary
         replicas_cost := replicas
         pgbouncer_cost := pgbouncer
         storage_cost := storage
         total_monthly := total
         total_annual := total * 12 }

/-- Result of `calculate_redis_cost`. -/
structure RedisCost where
  component : String
  masters_cost : InstanceCost
  replicas_cost : InstanceCost
  storage_cost : StorageCost
  total_monthly : ℚ
  total_annual : ℚ
deriving DecidableEq, Inhabited

/-- Embeds `calculate_redis_cost`: both node groups' storage is multiplied by
the respective node count. -/
def calculate_redis_cost (c : Calculator) : Option RedisCost := do
  let cfg := c.infrastructure.redis
  let masters ← calculate_instance_cost c.pricing cfg.masters.instance_type cfg.masters.nodes
  let replicas ← calculate_instance_cost c.pricing cfg.replicas.instance_type cfg.replicas.nodes
  let total_storage := cfg.masters.storage_gb * (cfg.masters.nodes : ℚ) +
    cfg.replicas.storage_gb * (cfg.replicas.nodes : ℚ)
  let storage := calculate_storage_cost c.pricing total_storage
  let total := masters.monthly_cost + replicas.monthly_cost + storage.monthly_cost
  some { component := "Redis Cluster"
         masters_cost := masters
         replicas_cost := replicas
         storage_cost := storage
         total_monthly := total
         total_annual := total * 12 }

/-- Result of `calculate_gateway_cost`. -/
structure GatewayCost where
  component : String
  traefik_cost : InstanceCost
  load_balancer_cost : ℚ
  total_monthly : ℚ
  total_annual : ℚ
deriving DecidableEq, Inhabited

/-- Embeds `calculate_gateway_cost`. -/
def calculate_gateway_cost (c : Calculator) : Option GatewayCost := do
  let cfg := c.infrastructure.gateway
  let traefik ← calculate_instance_cost c.pricing cfg.traefik.instance_type cfg.traefik.nodes
  let lb := (cfg.load_balancers : ℚ) * c.pricing.load_balancer
  let total := traefik.monthly_cost + lb
  some { component := "API Gateway"
         traefik_cost := traefik
         load_balancer_cost := lb
         total_monthly := total
         total_annual := total * 12 }

/-- An entry of the monitoring `components` list: the Python list mixes
instance-cost dicts and storage-cost dicts (each tagged with
`component_name`), so we use a sum type. -/
inductive MonEntry where
  | inst : String → InstanceCost → MonEntry
  | stor : String → StorageCost → MonEntry
deriving DecidableEq, Inhabited

/-- Result of `calculate_monitoring_cost`. -/
structure MonitoringCost where
  component : String
  components : List MonEntry
  total_monthly : ℚ
  total_annual : ℚ
deriving DecidableEq, Inhabited

/-- One iteration of the `calculate_monitoring_cost` loop: the entries it
appends, the instance-cost contribution to `total_monthly`, and the
contribution to `total_storage_monthly`.  The storage cost is computed on
`component_config['storage_gb']` alone — it is NOT multiplied by the
component's node count. -/
def monitoringItem (p : Pricing) (name : String) (cfg : MonCompCfg) :
    Option (List MonEntry × ℚ × ℚ) := do
  let instPart ← (match cfg.nodes with
    | some n => (calculate_instance_cost p cfg.instance_type n).map
        (fun ic => ([MonEntry.inst name ic], ic.monthly_cost))
    | none => some ([], 0) : Option (List MonEntry × ℚ))
  let storPart : List MonEntry × ℚ := (match cfg.storage_gb with
    | some g => ([MonEntry.stor name (calculate_storage_cost p g)],
        (calculate_storage_cost p g).monthly_cost)
    | none => ([], 0))
  some (instPart.1 ++ storPart.1, instPart.2, storPart.2)

/-- Embeds `calculate_monitoring_cost`.  The Python loop accumulates two running
sums and then adds them; summing the per-item contributions is the same. -/
def calculate_monitoring_cost (c : Calculator) : Option MonitoringCost := do
  let parts ← forEachOpt (fun item => monitoringItem c.pricing item.1 item.2)
    c.infrastructure.monitoring
  let entries := (parts.map Prod.fst).flatten
  let total_inst := (parts.map fun x => x.2.1).sum
  let total_storage := (parts.map fun x => x.2.2).sum
  let total := total_inst + total_storage
  some { component := "Monitoring Stack"
         components := entries
         total_monthly := total
         total_annual := total * 12 }

/-- Result of `calculate_bandwidth_cost`. -/
structure BandwidthCost where
  component : String
  per_meeting_bandwidth_mbps : ℚ
  peak_bandwidth_tb : ℚ
  off_peak_bandwidth_tb : ℚ
  total_bandwidth_tb : ℚ
  monthly_cost : ℚ
  annual_cost : ℚ
deriving DecidableEq, Inhabited

/-- Embeds `calculate_bandwidth_cost`: derives the monthly terabyte volume from
`bandwidth_requirements` and prices it with `tieredBandwidthCost`. -/
def calculate_bandwidth_cost (c : Calculator) : BandwidthCost :=
  let req := c.bandwidth_requirements
  let active_speakers := pyint (req.participants_per_meeting * req.active_speakers_ratio)
  let upload_bandwidth_mbps := active_speakers * 1.5
  let receive_streams_per_participant := min (active_speakers + 1) 6
  let download_bandwidth_per_participant := receive_streams_per_participant * 0.8
  let total_download_bandwidth := download_bandwidth_per_participant * req.participants_per_meeting
  let audio_bandwidth_mbps := req.participants_per_meeting * req.audio_bitrate_kbps / 1000
  let total_per_meeting_mbps := upload_bandwidth_mbps + total_download_bandwidth +
    audio_bandwidth_mbps
  let gb_per_hour_per_meeting := total_per_meeting_mbps * 0.45
  let gb_per_meeting := gb_per_hour_per_meeting * 0.75
  let full_capacity_meetings := pyint (req.concurrent_meetings * 0.6)
  let other_capacity_meetings := req.concurrent_meetings - full_capacity_meetings
  let daily_bandwidth_gb := gb_per_meeting * full_capacity_meetings +
    gb_per_meeting * 0.3 * other_capacity_meetings
  let monthly_bandwidth_tb := daily_bandwidth_gb * 22 / 1024
  -- `chargeable_bandwidth_tb` is computed in the source but unused:
  let _chargeable := max 0 (monthly_bandwidth_tb - 1)
  let monthly_cost := tieredBandwidthCost c.pricing.storage.bandwidth monthly_bandwidth_tb
  { component := "Bandwidth"
    per_meeting_bandwidth_mbps := total_per_meeting_mbps
    peak_bandwidth_tb := monthly_bandwidth_tb * 0.6
    off_peak_bandwidth_tb := monthly_bandwidth_tb * 0.4
    total_bandwidth_tb := monthly_bandwidth_tb
    monthly_cost := monthly_cost
    annual_cost := monthly_cost * 12 }

/-- Result of `calculate_storage_requirements_cost`. -/
structure RecordingStorageCost where
  component : String
  per_meeting_gb : ℚ
  daily_storage_gb : ℚ
  compressed_daily_storage_gb : ℚ
  hot_storage_gb : ℚ
  cold_storage_gb : ℚ
  hot_storage_monthly_cost : ℚ
  cold_storage_monthly_cost : ℚ
  total_monthly : ℚ
  total_annual : ℚ
deriving DecidableEq, Inhabited

/-- Embeds `calculate_storage_requirements_cost`. -/
def calculate_storage_requirements_cost (c : Calculator) : RecordingStorageCost :=
  let req := c.storage_requirements
  let active_streams_per_meeting := min (pyint (req.participants_per_meeting * 0.15)) 8
  let recording_bitrate_mbps : ℚ := 1.0
  let per_hour_gb := recording_bitrate_mbps * 3600 / 8 / 1024
  let per_meeting_gb := per_hour_gb * active_streams_per_meeting * req.avg_meeting_duration_hours
  let recording_adoption_rate : ℚ := 0.7
  let daily_meetings := pyint (req.concurrent_meetings * recording_adoption_rate)
  let daily_storage_gb := per_meeting_gb * daily_meetings
  let compressed_daily_storage_gb := daily_storage_gb * req.compression_ratio
  let hot_storage_gb := compressed_daily_storage_gb * req.hot_storage_days
  let cold_storage_months : ℚ := 11
  let cold_storage_gb := compressed_daily_storage_gb * cold_storage_months * 30
  let hot_storage_cost := hot_storage_gb * c.pricing.storage.block_storage
  let cold_storage_cost := cold_storage_gb * req.cold_storage_cost_per_gb
  let total := hot_storage_cost + cold_storage_cost
  { component := "Storage (Recordings)"
    per_meeting_gb := per_meeting_gb
    daily_storage_gb := daily_storage_gb
    compressed_daily_storage_gb := compressed_daily_storage_gb
    hot_storage_gb := hot_storage_gb
    cold_storage_gb := cold_storage_gb
    hot_storage_monthly_cost := hot_storage_cost
    cold_storage_monthly_cost := cold_storage_cost
    total_monthly := total
    total_annual := total * 12 }

/-! ## Operational and one-time costs -/

/-- One entry of the `team_costs` list in `calculate_operational_costs`. -/
structure TeamDetail where
  role : String
  count : ℚ
  monthly_salary : ℚ
  monthly_cost : ℚ
deriving DecidableEq, Inhabited

/-- Result of `calculate_operational_costs`. -/
structure OperationalCosts where
  component : String
  team_costs : List TeamDetail
  team_monthly : ℚ
  marketing_sales : ℚ
  operations_support : ℚ
  total_monthly : ℚ
  total_annual : ℚ
deriving DecidableEq, Inhabited

/-- Embeds `calculate_operational_costs`. -/
def calculate_operational_costs (c : Calculator) : OperationalCosts :=
  let roles := c.operational_costs.team_salaries.toList
  let team_details := roles.map fun item =>
    { role := item.1
      count := item.2.count
      monthly_salary := item.2.monthly_salary
      monthly_cost := item.2.count * item.2.monthly_salary : TeamDetail }
  let team_monthly := (team_details.map fun d => d.monthly_cost).sum
  let total := team_monthly + c.operational_costs.marketing_sales +
    c.operational_costs.operations_support
  { component := "Operational Costs"
    team_costs := team_details
    team_monthly := team_monthly
    marketing_sales := c.operational_costs.marketing_sales
    operations_support := c.operational_costs.operations_support
    total_monthly := total
    total_annual := total * 12 }

/-- Result of `calculate_one_time_costs`. -/
structure OneTimeCosts where
  development : ℚ
  infrastructure_setup : ℚ
  testing_qa : ℚ
  marketing_launch : ℚ
  total : ℚ
deriving DecidableEq, Inhabited

/-- Embeds `calculate_one_time_costs`. -/
def calculate_one_time_costs (c : Calculator) : OneTimeCosts :=
  let development_months : ℚ := 4
  let ts := c.operational_costs.team_salaries
  let team_monthly_cost := ts.backend_dev.count * ts.backend_dev.monthly_salary +
    ts.devops.count * ts.devops.monthly_salary
  let development_cost := team_monthly_cost * development_months
  { development := development_cost
    infrastructure_setup := 50000
    testing_qa := 30000
    marketing_launch := 50000
    total := development_cost + 50000 + 30000 + 50000 }

/-! ## Total infrastructure cost -/

/-- The fields of a component result that
`calculate_total_infrastructure_cost` and
`generate_cost_optimization_analysis` read (`comp['component']` and
`comp.get('total_monthly', 0)`).  The Python `components` list is
heterogeneous; in Lean it holds this common projection. -/
structure CompSummary where
  component : String
  total_monthly : ℚ
deriving DecidableEq, Inhabited

def LiveKitCost.summary (x : LiveKitCost) : CompSummary :=
  { component := x.component, total_monthly := x.total_monthly }

def ApiServicesCost.summary (x : ApiServicesCost) : CompSummary :=
  { component := x.component, total_monthly := x.total_monthly }

def DatabaseCost.summary (x : DatabaseCost) : CompSummary :=
  { component := x.component, total_monthly := x.total_monthly }

def RedisCost.summary (x : RedisCost) : CompSummary :=
  { component := x.component, total_monthly := x.total_monthly }

def GatewayCost.summary (x : GatewayCost) : CompSummary :=
  { component := x.component, total_monthly := x.total_monthly }

def MonitoringCost.summary (x : MonitoringCost) : CompSummary :=
  { component := x.component, total_monthly := x.total_monthly }

/-- The bandwidth result dict carries its cost under the key
`monthly_cost` and has NO `total_monthly` key, so
`comp.get('total_monthly', 0)` returns the default 0 for it. -/
def BandwidthCost.summary (x : BandwidthCost) : CompSummary :=
  { component := x.component, total_monthly := 0 }

def RecordingStorageCost.summary (x : RecordingStorageCost) : CompSummary :=
  { component := x.component, total_monthly := x.total_monthly }

/-- Result of `calculate_total_infrastructure_cost`. -/
structure TotalInfraCost where
  components : List CompSummary
  infrastructure_monthly : ℚ
  contingency_monthly : ℚ
  total_monthly : ℚ
  total_annual : ℚ
deriving DecidableEq, Inhabited

/-- Embeds `calculate_total_infrastructure_cost`: the eight component results in
source order, summed, plus a 15% contingency. -/
def calculate_total_infrastructure_cost (c : Calculator) : Option TotalInfraCost := do
  let lk ← calculate_livekit_sfu_cost c
  let api ← calculate_api_services_cost c
  let db ← calculate_database_cost c
  let rd ← calculate_redis_cost c
  let gw ← calculate_gateway_cost c
  let mon ← calculate_monitoring_cost c
  let bw := calculate_bandwidth_cost c
  let st := calculate_storage_requirements_cost c
  let components := [lk.summary, api.summary, db.summary, rd.summary,
    gw.summary, mon.summary, bw.summary, st.summary]
  let total_infrastructure_monthly := (components.map fun comp => comp.total_monthly).sum
  let contingency := total_infrastructure_monthly * 0.15
  let total_with_contingency := total_infrastructure_monthly + contingency
  some { components := components
         infrastructure_monthly := total_infrastructure_monthly
         contingency_monthly := contingency
         total_monthly := total_with_contingency
         total_annual := total_with_contingency * 12 }

/-! ## ROI analysis -/

/-- One row of the `pricing_tiers` dict in `generate_roi_analysis`. -/
structure PricingTier where
  price : ℚ
  max_participants : ℚ
deriving DecidableEq, Inhabited

/-- The `pricing_tiers` dict (three fixed keys). -/
structure PricingTiers where
  basic : PricingTier
  professional : PricingTier
  enterprise : PricingTier
deriving DecidableEq, Inhabited

/-- The literal `pricing_tiers` of `generate_roi_analysis`. -/
def roiPricingTiers : PricingTiers :=
  { basic := { price := 10, max_participants := 50 }
    professional := { price := 50, max_participants := 200 }
    enterprise := { price := 200, max_participants := 500 } }

/-- One scenario configuration of `generate_roi_analysis`. -/
structure ScenarioCfg where
  year1_meetings_per_day : ℚ
  year2_meetings_per_day : ℚ
  year3_meetings_per_day : ℚ
  enterprise_ratio : ℚ
deriving DecidableEq, Inhabited

/-- The literal `scenarios` dict of `generate_roi_analysis`, in
iteration order. -/
def roiScenarios : List (String × ScenarioCfg) :=
  [ ("conservative",
     { year1_meetings_per_day := 100, year2_meetings_per_day := 500
       year3_meetings_per_day := 1000, enterprise_ratio := 0.2 })
  , ("moderate",
     { year1_meetings_per_day := 200, year2_meetings_per_day := 1000
       year3_meetings_per_day := 2000, enterprise_ratio := 0.25 })
  , ("aggressive",
     { year1_meetings_per_day := 500, year2_meetings_per_day := 2000
       year3_meetings_per_day := 5000, enterprise_ratio := 0.3 }) ]

/-- The yearly revenue of one scenario year (body of the `for year` loop):
monthly revenue from the tier mix, times 30 days, times 12 months. -/
def yearlyRevenue (cfg : ScenarioCfg) (meetings_per_day : ℚ) : ℚ :=
  let enterprise_meetings := meetings_per_day * cfg.enterprise_ratio
  let professional_meetings := meetings_per_day * 0.3
  let basic_meetings := meetings_per_day - enterprise_meetings - professional_meetings
  let monthly_revenue := (enterprise_meetings * roiPricingTiers.enterprise.price +
    professional_meetings * roiPricingTiers.professional.price +
    basic_meetings * roiPricingTiers.basic.price) * 30
  monthly_revenue * 12

/-- The `monthly_profit` selected for month `m` inside the break-even
loop: `yearly_profit[1]/12` for months 1-12, `yearly_profit[2]/12` for
months 13-24, `yearly_profit[3]/12` afterwards. -/
def monthlyProfitAt (yp1 yp2 yp3 : ℚ) (m : ℕ) : ℚ :=
  if m ≤ 12 then yp1 / 12 else if m ≤ 24 then yp2 / 12 else yp3 / 12

/-- The break-even `for month in range(1, 37)` loop.  The accumulator is
`cumulative_profit`; month 1 overwrites it with the first month's profit
minus the one-time costs; the loop `break`s at the first month whose
cumulative profit is strictly positive. -/
def breakEvenLoop (yp1 yp2 yp3 one_time : ℚ) : List ℕ → ℚ → Option ℕ
  | [], _ => none
  | m :: rest, cum =>
    let mp := monthlyProfitAt yp1 yp2 yp3 m
    let cum' := if m = 1 then mp - one_time else cum + mp
    if 0 < cum' then some m else breakEvenLoop yp1 yp2 yp3 one_time rest cum'

/-- Embeds `break_even_month`: the loop over months 1..36 started with
`cumulative_profit = 0`. -/
def breakEvenMonth (yp1 yp2 yp3 one_time : ℚ) : Option ℕ :=
  breakEvenLoop yp1 yp2 yp3 one_time (List.range' 1 36) 0

/-- The cumulative profit after `m` months as the specification words it:
month 1's profit minus the total one-time costs, plus each subsequent
month's profit. -/
def specCumulativeProfit (yp1 yp2 yp3 one_time : ℚ) (m : ℕ) : ℚ :=
  (∑ k ∈ Finset.Icc 1 m, monthlyProfitAt yp1 yp2 yp3 k) - one_time

/-- Result entry for one ROI scenario. -/
structure ScenarioResult where
  yearly_revenue_1 : ℚ
  yearly_revenue_2 : ℚ
  yearly_revenue_3 : ℚ
  yearly_profit_1 : ℚ
  yearly_profit_2 : ℚ
  yearly_profit_3 : ℚ
  break_even_month : Option ℕ
  total_3_year_profit : ℚ
deriving DecidableEq, Inhabited

/-- The body of the `for scenario_name, scenario_config` loop of
`generate_roi_analysis`: revenues and profits for the three years, the
break-even scan, and the 3-year profit. -/
def mkScenarioResult (total_monthly_burn one_time : ℚ) (cfg : ScenarioCfg) :
    ScenarioResult :=
  let r1 := yearlyRevenue cfg cfg.year1_meetings_per_day
  let r2 := yearlyRevenue cfg cfg.year2_meetings_per_day
  let r3 := yearlyRevenue cfg cfg.year3_meetings_per_day
  let p1 := r1 - total_monthly_burn * 12
  let p2 := r2 - total_monthly_burn * 12
  let p3 := r3 - total_monthly_burn * 12
  { yearly_revenue_1 := r1
    yearly_revenue_2 := r2
    yearly_revenue_3 := r3
    yearly_profit_1 := p1
    yearly_profit_2 := p2
    yearly_profit_3 := p3
    break_even_month := breakEvenMonth p1 p2 p3 one_time
    total_3_year_profit := p1 + p2 + p3 - one_time }

/-- Result of `generate_roi_analysis`. -/
structure RoiAnalysis where
  scenarios : List (String × ScenarioResult)
  monthly_burn : ℚ
  one_time_costs : OneTimeCosts
deriving DecidableEq, Inhabited

/-- Embeds `generate_roi_analysis`. -/
def generate_roi_analysis (c : Calculator) : Option RoiAnalysis := do
  let operational := calculate_operational_costs c
  let infrastructure ← calculate_total_infrastructure_cost c
  let total_monthly_burn := operational.total_monthly + infrastructure.total_monthly
  let one_time := (calculate_one_time_costs c).total
  some { scenarios := roiScenarios.map fun item =>
           (item.1, mkScenarioResult total_monthly_burn one_time item.2)
         monthly_burn := total_monthly_burn
         one_time_costs := calculate_one_time_costs c }

/-! ## Cost optimization analysis -/

/-- One entry of the `optimizations` dict. -/
structure OptCfg where
  description : String
  savings_percentage : ℚ
  applicable_components : List String
deriving DecidableEq, Inhabited

/-- The literal `optimizations` dict, in iteration order. -/
def optimizationTable : List (String × OptCfg) :=
  [ ("reserved_instances",
     { description := "30% discount for 1-year commitment"
       savings_percentage := 0.30
       applicable_components :=
         ["LiveKit SFU", "API Services", "Database Layer", "Redis Cluster"] })
  , ("spot_instances",
     { description := "70% discount for non-critical services"
       savings_percentage := 0.70
       applicable_components := ["Monitoring Stack", "Development environments"] })
  , ("storage_optimization",
     { description := "Compression and tiered storage"
       savings_percentage := 0.50
       applicable_components := ["Storage (Recordings)"] })
  , ("network_optimization",
     { description := "CDN integration and compression"
       savings_percentage := 0.30
       applicable_components := ["Bandwidth"] }) ]

/-- One entry of `optimization_details`. -/
structure OptDetail where
  optimization : String
  description : String
  applicable_cost : ℚ
  savings_percentage : ℚ
  monthly_savings : ℚ
  annual_savings : ℚ
deriving DecidableEq, Inhabited

/-- Result of `generate_cost_optimization_analysis`. -/
structure CostOptimization where
  base_monthly_cost : ℚ
  optimizations : List OptDetail
  total_monthly_savings : ℚ
  optimized_monthly_cost : ℚ
  total_annual_savings : ℚ
deriving DecidableEq, Inhabited

/-- Embeds `generate_cost_optimization_analysis`. -/
def generate_cost_optimization_analysis (c : Calculator) : Option CostOptimization := do
  let base ← calculate_total_infrastructure_cost c
  let details := optimizationTable.map fun item =>
    let applicable_cost := ((base.components.filter fun comp =>
      item.2.applicable_components.contains comp.component).map
        fun comp => comp.total_monthly).sum
    let monthly_savings := applicable_cost * item.2.savings_percentage
    { optimization := item.1
      description := item.2.description
      applicable_cost := applicable_cost
      savings_percentage := item.2.savings_percentage
      monthly_savings := monthly_savings
      annual_savings := monthly_savings * 12 : OptDetail }
  let total_monthly_savings := (details.map fun d => d.monthly_savings).sum
  some { base_monthly_cost := base.total_monthly
         optimizations := details
         total_monthly_savings := total_monthly_savings
         optimized_monthly_cost := base.total_monthly - total_monthly_savings
         total_annual_savings := total_monthly_savings * 12 }

/-! ## Resource summary and complete report -/

/-- Result of `generate_resource_summary`. -/
structure ResourceSummary where
  total_vcpu : ℚ
  total_ram_gb : ℚ
  total_storage_gb : ℚ
  participant_capacity : ℚ
  meetings_capacity : ℚ
  cost_per_participant_monthly : ℚ
  cost_per_meeting_monthly : ℚ
deriving DecidableEq, Inhabited

/-- The (vcpu, ram, storage) contribution of one monitoring component in
`generate_resource_summary`. -/
def resourceMonitoringItem (p : Pricing) (cfg : MonCompCfg) : Option (ℚ × ℚ × ℚ) := do
  let instPart ← (match cfg.nodes with
    | some n => (List.lookup cfg.instance_type p.instances).map
        (fun spec => ((n : ℚ) * spec.vcpu, (n : ℚ) * spec.ram))
    | none => some (0, 0) : Option (ℚ × ℚ))
  let storPart : ℚ := (match cfg.storage_gb with
    | some g => g
    | none => 0)
  some (instPart.1, instPart.2, storPart)

/-- Embeds `generate_resource_summary`.  Note the source reads the primary's
instance type for the database replicas and the masters' type for the
Redis replicas, and it calls `calculate_total_infrastructure_cost` twice
for the two per-unit costs. -/
def generate_resource_summary (c : Calculator) : Option ResourceSummary := do
  let p := c.pricing
  let lk := c.infrastructure.livekit_sfu
  let lkSpec ← List.lookup lk.instance_type p.instances
  let api ← forEachOpt (fun item =>
    (List.lookup item.2.instance_type p.instances).map
      fun spec => ((item.2.replicas : ℚ) * spec.vcpu, (item.2.replicas : ℚ) * spec.ram))
    c.infrastructure.api_services
  let db := c.infrastructure.database
  let dbSpec ← List.lookup db.primary.instance_type p.instances
  let pgbSpec ← List.lookup db.pgbouncer.instance_type p.instances
  let redis := c.infrastructure.redis
  let redisSpec ← List.lookup redis.masters.instance_type p.instances
  let gw := c.infrastructure.gateway
  let gwSpec ← List.lookup gw.traefik.instance_type p.instances
  let mon ← forEachOpt (fun item => resourceMonitoringItem p item.2)
    c.infrastructure.monitoring
  let total_vcpu := (lk.nodes : ℚ) * lkSpec.vcpu + (api.map Prod.fst).sum +
    ((db.primary.nodes : ℚ) + (db.replicas.nodes : ℚ)) * dbSpec.vcpu +
    (db.pgbouncer.nodes : ℚ) * pgbSpec.vcpu +
    ((redis.masters.nodes : ℚ) + (redis.replicas.nodes : ℚ)) * redisSpec.vcpu +
    (gw.traefik.nodes : ℚ) * gwSpec.vcpu +
    (mon.map fun x => x.1).sum
  let total_ram_gb := (lk.nodes : ℚ) * lkSpec.ram + (api.map Prod.snd).sum +
    ((db.primary.nodes : ℚ) + (db.replicas.nodes : ℚ)) * dbSpec.ram +
    (db.pgbouncer.nodes : ℚ) * pgbSpec.ram +
    ((redis.masters.nodes : ℚ) + (redis.replicas.nodes : ℚ)) * redisSpec.ram +
    (gw.traefik.nodes : ℚ) * gwSpec.ram +
    (mon.map fun x => x.2.1).sum
  let total_storage_gb := (lk.nodes : ℚ) * lk.storage_gb +
    (db.primary.storage_gb + db.replicas.storage_gb * (db.replicas.nodes : ℚ)) +
    (redis.masters.storage_gb * (redis.masters.nodes : ℚ) +
      redis.replicas.storage_gb * (redis.replicas.nodes : ℚ)) +
    (mon.map fun x => x.2.2).sum
  let infraA ← calculate_total_infrastructure_cost c
  let infraB ← calculate_total_infrastructure_cost c
  some { total_vcpu := total_vcpu
         total_ram_gb := total_ram_gb
         total_storage_gb := total_storage_gb
         participant_capacity := 50000
         meetings_capacity := 100
         cost_per_participant_monthly := infraA.total_monthly / 50000
         cost_per_meeting_monthly := infraB.total_monthly / 100 }

/-- The complete report dictionary. -/
structure Report where
  timestamp : String
  infrastructure_costs : TotalInfraCost
  operational_costs : OperationalCosts
  one_time_costs : OneTimeCosts
  roi_analysis : RoiAnalysis
  cost_optimization : CostOptimization
  resource_summary : ResourceSummary
deriving DecidableEq, Inhabited

/-- Embeds `generate_complete_report`; the `datetime.now().isoformat()` timestamp
is a parameter. -/
def generate_complete_report (c : Calculator) (timestamp : String) : Option Report := do
  let infrastructure ← calculate_total_infrastructure_cost c
  let operational := calculate_operational_costs c
  let one_time := calculate_one_time_costs c
  let roi ← generate_roi_analysis c
  let optimization ← generate_cost_optimization_analysis c
  let resources ← generate_resource_summary c
  some { timestamp := timestamp
         infrastructure_costs := infrastructure
         operational_costs := operational
         one_time_costs := one_time
         roi_analysis := roi
         cost_optimization := optimization
         resource_summary := resources }

/-! ## State-passing view of the methods

Python methods receive the mutable object `self`; to settle frame
claims we make that state explicit: each method becomes a function from
the calculator state to its result paired with the state the method
leaves behind.  None of the method bodies contains an assignment to a
`self` attribute, so each translated method returns its state unchanged;
the two composite entry points thread the state through their direct
sub-calls. -/

def calculate_instance_cost_st (c : Calculator) (instance_type : String) (nodes : ℕ) :
    Option InstanceCost × Calculator :=
  (calculate_instance_cost c.pricing instance_type nodes, c)

def calculate_storage_cost_st (c : Calculator) (storage_gb : ℚ) :
    StorageCost × Calculator :=
  (calculate_storage_cost c.pricing storage_gb, c)

def calculate_livekit_sfu_cost_st (c : Calculator) : Option LiveKitCost × Calculator :=
  (calculate_livekit_sfu_cost c, c)

def calculate_api_services_cost_st (c : Calculator) : Option ApiServicesCost × Calculator :=
  (calculate_api_services_cost c, c)

def calculate_database_cost_st (c : Calculator) : Option DatabaseCost × Calculator :=
  (calculate_database_cost c, c)

def calculate_redis_cost_st (c : Calculator) : Option RedisCost × Calculator :=
  (calculate_redis_cost c, c)

def calculate_gateway_cost_st (c : Calculator) : Option GatewayCost × Calculator :=
  (calculate_gateway_cost c, c)

def calculate_monitoring_cost_st (c : Calculator) : Option MonitoringCost × Calculator :=
  (calculate_monitoring_cost c, c)

def calculate_bandwidth_cost_st (c : Calculator) : BandwidthCost × Calculator :=
  (calculate_bandwidth_cost c, c)

def calculate_storage_requirements_cost_st (c : Calculator) :
    RecordingStorageCost × Calculator :=
  (calculate_storage_requirements_cost c, c)

def calculate_operational_costs_st (c : Calculator) : OperationalCosts × Calculator :=
  (calculate_operational_costs c, c)

def calculate_one_time_costs_st (c : Calculator) : OneTimeCosts × Calculator :=
  (calculate_one_time_costs c, c)

/-- Embeds `calculate_total_infrastructure_cost` threads the state through its
eight component calls; its own body performs no writes. -/
def calculate_total_infrastructure_cost_st (c : Calculator) :
    Option TotalInfraCost × Calculator :=
  let s1 := calculate_livekit_sfu_cost_st c
  let s2 := calculate_api_services_cost_st s1.2
  let s3 := calculate_database_cost_st s2.2
  let s4 := calculate_redis_cost_st s3.2
  let s5 := calculate_gateway_cost_st s4.2
  let s6 := calculate_monitoring_cost_st s5.2
  let s7 := calculate_bandwidth_cost_st s6.2
  let s8 := calculate_storage_requirements_cost_st s7.2
  (calculate_total_infrastructure_cost s8.2, s8.2)

def generate_roi_analysis_st (c : Calculator) : Option RoiAnalysis × Calculator :=
  let s1 := calculate_operational_costs_st c
  let s2 := calculate_total_infrastructure_cost_st s1.2
  let s3 := calculate_one_time_costs_st s2.2
  (generate_roi_analysis s3.2, s3.2)

def generate_cost_optimization_analysis_st (c : Calculator) :
    Option CostOptimization × Calculator :=
  let s1 := calculate_total_infrastructure_cost_st c
  (generate_cost_optimization_analysis s1.2, s1.2)

def generate_resource_summary_st (c : Calculator) : Option ResourceSummary × Calculator :=
  let s1 := calculate_total_infrastructure_cost_st c
  let s2 := calculate_total_infrastructure_cost_st s1.2
  (generate_resource_summary s2.2, s2.2)

/-- Embeds `generate_complete_report` threads the state through its six
sub-generators in source order. -/
def generate_complete_report_st (c : Calculator) (timestamp : String) :
    Option Report × Calculator :=
  let s1 := calculate_total_infrastructure_cost_st c
  let s2 := calculate_operational_costs_st s1.2
  let s3 := calculate_one_time_costs_st s2.2
  let s4 := generate_roi_analysis_st s3.2
  let s5 := generate_cost_optimization_analysis_st s4.2
  let s6 := generate_resource_summary_st s5.2
  (generate_complete_report s6.2 timestamp, s6.2)

/-! ## Theorems -/

/-- With the concrete DigitalOcean prices, the tier dispatch of the code
is the piecewise function of the specification. -/
theorem tiered_eq_specPiecewise (t : ℚ) :
    tieredBandwidthCost defaultCalculator.pricing.storage.bandwidth t =
      specBandwidthPiecewise t := rfl

/-- C2: The monthly bandwidth cost computed by `calculate_bandwidth_cost`
equals the three-branch piecewise-linear function of the total monthly
terabytes t: `t*1024*0.01` for `t ≤ 100`, `100*1024*0.01 +
(t-100)*1024*0.009` for `100 < t ≤ 500`, and `100*1024*0.01 +
400*1024*0.009 + (t-500)*1024*0.008` for `t > 500`. -/
theorem bandwidth_cost_piecewise (t : ℚ) :
    tieredBandwidthCost defaultCalculator.pricing.storage.bandwidth t =
      specBandwidthPiecewise t ∧
    (calculate_bandwidth_cost defaultCalculator).monthly_cost =
      specBandwidthPiecewise (calculate_bandwidth_cost defaultCalculator).total_bandwidth_tb :=
  ⟨tiered_eq_specPiecewise t,
   tiered_eq_specPiecewise (calculate_bandwidth_cost defaultCalculator).total_bandwidth_tb⟩

/-- The concrete tiered bandwidth price is monotone in the terabyte
volume. -/
theorem tiered_mono {t1 t2 : ℚ} (h : t1 ≤ t2) :
    tieredBandwidthCost defaultCalculator.pricing.storage.bandwidth t1 ≤
      tieredBandwidthCost defaultCalculator.pricing.storage.bandwidth t2 := by
  rw [tiered_eq_specPiecewise, tiered_eq_specPiecewise]
  unfold specBandwidthPiecewise
  split_ifs with h1 h2 h3 h3 h4 h5 <;> push_neg at * <;> nlinarith

/-- C3: The tiered bandwidth pricing function is non-decreasing
(for `0 ≤ t1 ≤ t2`, `cost t1 ≤ cost t2`) and continuous at the tier
boundaries: the second branch at 100 equals the first branch at 100, and
the third branch at 500 equals the second branch at 500. -/
theorem bandwidth_monotone_continuous (t1 t2 : ℚ) (h0 : 0 ≤ t1) (h12 : t1 ≤ t2) :
    tieredBandwidthCost defaultCalculator.pricing.storage.bandwidth t1 ≤
      tieredBandwidthCost defaultCalculator.pricing.storage.bandwidth t2 ∧
    bandwidthTier2 defaultCalculator.pricing.storage.bandwidth 100 =
      bandwidthTier1 defaultCalculator.pricing.storage.bandwidth 100 ∧
    bandwidthTier3 defaultCalculator.pricing.storage.bandwidth 500 =
      bandwidthTier2 defaultCalculator.pricing.storage.bandwidth 500 := by
  refine ⟨tiered_mono h12, ?_, ?_⟩ <;>
    simp [bandwidthTier1, bandwidthTier2, bandwidthTier3, defaultCalculator] <;> norm_num

/-- Witness for `bandwidth_monotone_continuous` at `t1 = 50`, `t2 = 600`. -/
theorem bandwidth_monotone_continuous_witness :
    tieredBandwidthCost defaultCalculator.pricing.storage.bandwidth 50 ≤
      tieredBandwidthCost defaultCalculator.pricing.storage.bandwidth 600 ∧
    bandwidthTier2 defaultCalculator.pricing.storage.bandwidth 100 =
      bandwidthTier1 defaultCalculator.pricing.storage.bandwidth 100 ∧
    bandwidthTier3 defaultCalculator.pricing.storage.bandwidth 500 =
      bandwidthTier2 defaultCalculator.pricing.storage.bandwidth 500 :=
  bandwidth_monotone_continuous 50 600 (by norm_num) (by norm_num)

/-- C5: For every instance type present in the price table and every node
count, `calculate_instance_cost` returns the per-unit products (monthly =
nodes × price, annual = 12 × monthly, vcpu and ram scaled by the node
count), and `calculate_storage_cost` (with the constructed pricing table)
returns `storage_gb * 0.10` monthly and 12 times that annually. -/
theorem instance_and_storage_cost_formulas (p : Pricing) (ty : String)
    (spec : InstanceSpec) (n : ℕ) (g : ℚ)
    (h : List.lookup ty p.instances = some spec) :
    (∃ r, calculate_instance_cost p ty n = some r ∧
      r.monthly_cost = (n : ℚ) * spec.price ∧
      r.annual_cost = 12 * r.monthly_cost ∧
      r.vcpu_total = (n : ℚ) * spec.vcpu ∧
      r.ram_total_gb = (n : ℚ) * spec.ram) ∧
    (calculate_storage_cost defaultCalculator.pricing g).monthly_cost = g * 0.10 ∧
    (calculate_storage_cost defaultCalculator.pricing g).annual_cost =
      12 * (calculate_storage_cost defaultCalculator.pricing g).monthly_cost := by
  refine ⟨⟨{ instance_type := ty, nodes := n, vcpu_total := (n : ℚ) * spec.vcpu
             ram_total_gb := (n : ℚ) * spec.ram, monthly_cost := (n : ℚ) * spec.price
             annual_cost := ((n : ℚ) * spec.price) * 12 },
           ?_, rfl, by ring, rfl, rfl⟩,
         rfl, by simp only [calculate_storage_cost]; ring⟩
  rw [calculate_instance_cost, h]
  rfl

/-- Witness for `instance_and_storage_cost_formulas`: the "large" row of
the constructed price table, 3 nodes, 7 GB. -/
theorem instance_and_storage_cost_formulas_witness :
    (∃ r, calculate_instance_cost defaultCalculator.pricing "large" 3 = some r ∧
      r.monthly_cost = (3 : ℚ) * (334 : ℚ) ∧
      r.annual_cost = 12 * r.monthly_cost ∧
      r.vcpu_total = (3 : ℚ) * (16 : ℚ) ∧
      r.ram_total_gb = (3 : ℚ) * (64 : ℚ)) ∧
    (calculate_storage_cost defaultCalculator.pricing 7).monthly_cost = 7 * 0.10 ∧
    (calculate_storage_cost defaultCalculator.pricing 7).annual_cost =
      12 * (calculate_storage_cost defaultCalculator.pricing 7).monthly_cost :=
  instance_and_storage_cost_formulas defaultCalculator.pricing "large"
    { vcpu := 16, ram := 64, price := 334 } 3 7 rfl

/-- Decomposition of a successful `calculate_total_infrastructure_cost`
run into its component results and the aggregation equations. -/
theorem total_infra_decompose (c : Calculator) (r : TotalInfraCost)
    (h : calculate_total_infrastructure_cost c = some r) :
    ∃ lk api db rd gw mon,
      calculate_livekit_sfu_cost c = some lk ∧
      calculate_api_services_cost c = some api ∧
      calculate_database_cost c = some db ∧
      calculate_redis_cost c = some rd ∧
      calculate_gateway_cost c = some gw ∧
      calculate_monitoring_cost c = some mon ∧
      r.infrastructure_monthly =
        lk.total_monthly + api.total_monthly + db.total_monthly + rd.total_monthly +
        gw.total_monthly + mon.total_monthly + 0 +
        (calculate_storage_requirements_cost c).total_monthly ∧
      r.contingency_monthly = 0.15 * r.infrastructure_monthly ∧
      r.total_monthly = r.infrastructure_monthly + r.contingency_monthly ∧
      r.total_annual = 12 * r.total_monthly := by
  simp only [calculate_total_infrastructure_cost, bind, Option.bind_eq_some,
    Option.some.injEq] at h
  obtain ⟨lk, hlk, api, hapi, db, hdb, rd, hrd, gw, hgw, mon, hmon, hr⟩ := h
  refine ⟨lk, api, db, rd, gw, mon, hlk, hapi, hdb, hrd, hgw, hmon, ?_, ?_, ?_, ?_⟩ <;>
    subst hr <;>
    simp [LiveKitCost.summary, ApiServicesCost.summary, DatabaseCost.summary,
      RedisCost.summary, GatewayCost.summary, MonitoringCost.summary,
      BandwidthCost.summary, RecordingStorageCost.summary] <;>
    ring

/-- Concrete value of the LiveKit component at the constructed
calculator: monthly total 13025, storage part 500 (= 200 GB × 25 nodes ×
0.10). -/
theorem livekit_values {lk : LiveKitCost}
    (h : calculate_livekit_sfu_cost defaultCalculator = some lk) :
    lk.total_monthly = 13025 ∧ lk.storage_cost.monthly_cost = 500 := by
  have hx : lk = (calculate_livekit_sfu_cost defaultCalculator).getD default := by
    rw [h]; rfl
  subst hx
  constructor <;>
    · simp [calculate_livekit_sfu_cost, calculate_instance_cost, calculate_storage_cost,
        defaultCalculator, List.lookup]
      norm_num

/-- Concrete value of the API-services component: monthly total 6611. -/
theorem api_services_value {x : ApiServicesCost}
    (h : calculate_api_services_cost defaultCalculator = some x) :
    x.total_monthly = 6611 := by
  have hx : x = (calculate_api_services_cost defaultCalculator).getD default := by
    rw [h]; rfl
  subst hx
  simp [calculate_api_services_cost, calculate_instance_cost, forEachOpt,
    defaultCalculator, List.lookup]
  norm_num

/-- Concrete value of the database component: monthly total 2388. -/
theorem database_value {x : DatabaseCost}
    (h : calculate_database_cost defaultCalculator = some x) :
    x.total_monthly = 2388 := by
  have hx : x = (calculate_database_cost defaultCalculator).getD default := by
    rw [h]; rfl
  subst hx
  simp [calculate_database_cost, calculate_instance_cost, calculate_storage_cost,
    defaultCalculator, List.lookup]
  norm_num

/-- Concrete value of the Redis component: monthly total 2604, storage
part 600 (= 500 GB × 6 + 500 GB × 6, times 0.10). -/
theorem redis_values {x : RedisCost}
    (h : calculate_redis_cost defaultCalculator = some x) :
    x.total_monthly = 2604 ∧ x.storage_cost.monthly_cost = 600 := by
  have hx : x = (calculate_redis_cost defaultCalculator).getD default := by
    rw [h]; rfl
  subst hx
  constructor <;>
    · simp [calculate_redis_cost, calculate_instance_cost, calculate_storage_cost,
        defaultCalculator, List.lookup]
      norm_num

/-- Concrete value of the gateway component: monthly total 564. -/
theorem gateway_value {x : GatewayCost}
    (h : calculate_gateway_cost defaultCalculator = some x) :
    x.total_monthly = 564 := by
  have hx : x = (calculate_gateway_cost defaultCalculator).getD default := by
    rw [h]; rfl
  subst hx
  simp [calculate_gateway_cost, calculate_instance_cost, defaultCalculator, List.lookup]
  norm_num

/-- Concrete value of the monitoring component: monthly total 559
(= 334 + 126 + 42 instances plus 50 + 5 + 2 storage). -/
theorem monitoring_value {x : MonitoringCost}
    (h : calculate_monitoring_cost defaultCalculator = some x) :
    x.total_monthly = 559 := by
  have hx : x = (calculate_monitoring_cost defaultCalculator).getD default := by
    rw [h]; rfl
  subst hx
  simp [calculate_monitoring_cost, monitoringItem, calculate_instance_cost,
    calculate_storage_cost, forEachOpt, defaultCalculator, List.lookup]
  norm_num

/-- Concrete value of the bandwidth component's monthly cost. -/
theorem bandwidth_value :
    (calculate_bandwidth_cost defaultCalculator).monthly_cost = 7085211 / 625 := by
  simp [calculate_bandwidth_cost, tieredBandwidthCost, bandwidthTier1, bandwidthTier2,
    bandwidthTier3, pyint, defaultCalculator]
  norm_num

/-- Concrete value of the recording-storage component: monthly total
637.875. -/
theorem recording_storage_value :
    (calculate_storage_requirements_cost defaultCalculator).total_monthly = 5103 / 8 := by
  simp [calculate_storage_requirements_cost, pyint, defaultCalculator]
  norm_num

/-- C4, counterexample: at the constructed calculator, the
`infrastructure_monthly` total is NOT the sum of all eight components'
monthly totals — the bandwidth result dict stores its cost under
`monthly_cost` and has no `total_monthly` key, so `comp.get('total_monthly', 0)`
contributes 0 for it and the bandwidth cost is left out of the total. -/
theorem total_infrastructure_sum_counterexample :
    ∃ r lk api db rd gw mon,
      calculate_total_infrastructure_cost defaultCalculator = some r ∧
      calculate_livekit_sfu_cost defaultCalculator = some lk ∧
      calculate_api_services_cost defaultCalculator = some api ∧
      calculate_database_cost defaultCalculator = some db ∧
      calculate_redis_cost defaultCalculator = some rd ∧
      calculate_gateway_cost defaultCalculator = some gw ∧
      calculate_monitoring_cost defaultCalculator = some mon ∧
      r.infrastructure_monthly ≠
        lk.total_monthly + api.total_monthly + db.total_monthly + rd.total_monthly +
        gw.total_monthly + mon.total_monthly +
        (calculate_bandwidth_cost defaultCalculator).monthly_cost +
        (calculate_storage_requirements_cost defaultCalculator).total_monthly := by
  obtain ⟨lk, api, db, rd, gw, mon, hlk, hapi, hdb, hrd, hgw, hmon, hsum, hcont, htot, hann⟩ :=
    total_infra_decompose defaultCalculator
      ((calculate_total_infrastructure_cost defaultCalculator).getD default) rfl
  refine ⟨(calculate_total_infrastructure_cost defaultCalculator).getD default,
    lk, api, db, rd, gw, mon, rfl, hlk, hapi, hdb, hrd, hgw, hmon, ?_⟩
  rw [hsum, (livekit_values hlk).1, api_services_value hapi, database_value hdb,
    (redis_values hrd).1, gateway_value hgw, monitoring_value hmon, bandwidth_value,
    recording_storage_value]
  norm_num

/-- C4 as amended: `infrastructure_monthly` is the sum of the
`total_monthly` fields of the seven component results that have one; the
bandwidth component contributes the `get` default 0 because its result
has no `total_monthly` key.  Contingency is 15% of that sum, the monthly
total adds the contingency, and the annual total is 12 times the monthly
total. -/
theorem total_infrastructure_aggregation (c : Calculator) (r : TotalInfraCost)
    (h : calculate_total_infrastructure_cost c = some r) :
    ∃ lk api db rd gw mon,
      calculate_livekit_sfu_cost c = some lk ∧
      calculate_api_services_cost c = some api ∧
      calculate_database_cost c = some db ∧
      calculate_redis_cost c = some rd ∧
      calculate_gateway_cost c = some gw ∧
      calculate_monitoring_cost c = some mon ∧
      r.infrastructure_monthly =
        lk.total_monthly + api.total_monthly + db.total_monthly + rd.total_monthly +
        gw.total_monthly + mon.total_monthly + 0 +
        (calculate_storage_requirements_cost c).total_monthly ∧
      r.contingency_monthly = 0.15 * r.infrastructure_monthly ∧
      r.total_monthly = r.infrastructure_monthly + r.contingency_monthly ∧
      r.total_annual = 12 * r.total_monthly :=
  total_infra_decompose c r h

/-- Witness for `total_infrastructure_aggregation` at the constructed
calculator. -/
theorem total_infrastructure_aggregation_witness :
    ∃ r, calculate_total_infrastructure_cost defaultCalculator = some r ∧
      r.total_annual = 12 * r.total_monthly := by
  obtain ⟨lk, api, db, rd, gw, mon, h1, h2, h3, h4, h5, h6, hsum, hcont, htot, hann⟩ :=
    total_infrastructure_aggregation defaultCalculator
      ((calculate_total_infrastructure_cost defaultCalculator).getD default) rfl
  exact ⟨_, rfl, hann⟩

/-- C10: a monitoring component's storage cost is `storage_gb` times the
block-storage rate, counted once per component and not multiplied by the
node count; concretely the monitoring monthly total is the three instance
groups plus `500*0.10 + 50*0.10 + 20*0.10`, whereas the LiveKit SFU and
Redis storage is multiplied by the node counts (`200*25` and
`500*6 + 500*6` GB). -/
theorem monitoring_storage_once_per_component (p : Pricing) (name : String)
    (cfg : MonCompCfg) (g : ℚ) (parts : List MonEntry × ℚ × ℚ)
    (hg : cfg.storage_gb = some g) (hp : monitoringItem p name cfg = some parts) :
    parts.2.2 = g * p.storage.block_storage ∧
    (∃ m lk rd,
      calculate_monitoring_cost defaultCalculator = some m ∧
      calculate_livekit_sfu_cost defaultCalculator = some lk ∧
      calculate_redis_cost defaultCalculator = some rd ∧
      m.total_monthly = ((2 : ℚ) * 167 + 3 * 42 + 2 * 21) +
        (500 * 0.10 + 50 * 0.10 + 20 * 0.10) ∧
      lk.storage_cost.monthly_cost = (200 * 25) * 0.10 ∧
      rd.storage_cost.monthly_cost = (500 * 6 + 500 * 6) * 0.10) := by
  constructor
  · rcases hcn : cfg.nodes with _ | n
    · simp only [monitoringItem, hcn, hg, Option.bind_eq_bind, Option.some_bind,
        Option.some.injEq] at hp
      subst hp
      simp [calculate_storage_cost]
    · rcases hic : calculate_instance_cost p cfg.instance_type n with _ | ic
      · simp [monitoringItem, hcn, hic] at hp
      · simp only [monitoringItem, hcn, hg, hic, Option.map_some', Option.bind_eq_bind,
          Option.some_bind, Option.some.injEq] at hp
        subst hp
        simp [calculate_storage_cost]
  · refine ⟨(calculate_monitoring_cost defaultCalculator).getD default,
      (calculate_livekit_sfu_cost defaultCalculator).getD default,
      (calculate_redis_cost defaultCalculator).getD default,
      rfl, rfl, rfl, ?_, ?_, ?_⟩
    · rw [@monitoring_value ((calculate_monitoring_cost defaultCalculator).getD default) rfl]
      norm_num
    · rw [(@livekit_values ((calculate_livekit_sfu_cost defaultCalculator).getD default) rfl).2]
      norm_num
    · rw [(@redis_values ((calculate_redis_cost defaultCalculator).getD default) rfl).2]
      norm_num

/-- Witness for `monitoring_storage_once_per_component`: the
"prometheus" component of the constructed configuration (500 GB). -/
theorem monitoring_storage_once_per_component_witness :
    ((monitoringItem defaultCalculator.pricing "prometheus"
        { nodes := some 2, instance_type := "medium", storage_gb := some 500 }).getD
      default).2.2 = 500 * defaultCalculator.pricing.storage.block_storage ∧
    (∃ m lk rd,
      calculate_monitoring_cost defaultCalculator = some m ∧
      calculate_livekit_sfu_cost defaultCalculator = some lk ∧
      calculate_redis_cost defaultCalculator = some rd ∧
      m.total_monthly = ((2 : ℚ) * 167 + 3 * 42 + 2 * 21) +
        (500 * 0.10 + 50 * 0.10 + 20 * 0.10) ∧
      lk.storage_cost.monthly_cost = (200 * 25) * 0.10 ∧
      rd.storage_cost.monthly_cost = (500 * 6 + 500 * 6) * 0.10) :=
  monitoring_storage_once_per_component defaultCalculator.pricing "prometheus"
    { nodes := some 2, instance_type := "medium", storage_gb := some 500 } 500
    ((monitoringItem defaultCalculator.pricing "prometheus"
        { nodes := some 2, instance_type := "medium", storage_gb := some 500 }).getD default)
    rfl rfl

/-- C9: a scenario's reported `total_3_year_profit` is the sum of the
three yearly profits minus the total one-time implementation cost, which
is 4 months of team salary plus `50000 + 30000 + 50000`. -/
theorem total_3_year_profit_formula (c : Calculator) (burn : ℚ) (cfg : ScenarioCfg) :
    (mkScenarioResult burn (calculate_one_time_costs c).total cfg).total_3_year_profit =
      (mkScenarioResult burn (calculate_one_time_costs c).total cfg).yearly_profit_1 +
      (mkScenarioResult burn (calculate_one_time_costs c).total cfg).yearly_profit_2 +
      (mkScenarioResult burn (calculate_one_time_costs c).total cfg).yearly_profit_3 -
      ((c.operational_costs.team_salaries.backend_dev.count *
          c.operational_costs.team_salaries.backend_dev.monthly_salary +
        c.operational_costs.team_salaries.devops.count *
          c.operational_costs.team_salaries.devops.monthly_salary) * 4 +
        (50000 + 30000 + 50000)) := by
  simp only [mkScenarioResult, calculate_one_time_costs]
  ring

/-- Adding month `a+1`'s profit to the cumulative profit after `a ≥ 1`
months gives the cumulative profit after `a+1` months. -/
theorem specCumulativeProfit_succ (yp1 yp2 yp3 one_time : ℚ) (a : ℕ) (ha : 1 ≤ a) :
    specCumulativeProfit yp1 yp2 yp3 one_time a + monthlyProfitAt yp1 yp2 yp3 (a + 1) =
      specCumulativeProfit yp1 yp2 yp3 one_time (a + 1) := by
  unfold specCumulativeProfit
  rw [Finset.sum_Icc_succ_top (by omega : 1 ≤ a + 1)]
  ring

/-- One step of the break-even loop. -/
theorem breakEvenLoop_cons (yp1 yp2 yp3 one_time : ℚ) (m : ℕ) (rest : List ℕ) (cum : ℚ) :
    breakEvenLoop yp1 yp2 yp3 one_time (m :: rest) cum =
      (let mp := monthlyProfitAt yp1 yp2 yp3 m
       let cum' := if m = 1 then mp - one_time else cum + mp
       if 0 < cum' then some m else breakEvenLoop yp1 yp2 yp3 one_time rest cum') := rfl

/-- Loop invariant for the break-even scan: started at month `a+1 ≥ 2`
with the cumulative profit after `a` months, the loop returns the first
month of its range whose cumulative profit is strictly positive. -/
theorem breakEvenLoop_eq_find (yp1 yp2 yp3 one_time : ℚ) :
    ∀ (n a : ℕ), 1 ≤ a →
      breakEvenLoop yp1 yp2 yp3 one_time (List.range' (a + 1) n)
          (specCumulativeProfit yp1 yp2 yp3 one_time a) =
        (List.range' (a + 1) n).find? fun m =>
          decide (0 < specCumulativeProfit yp1 yp2 yp3 one_time m) := by
  intro n
  induction n with
  | zero => intro a ha; rfl
  | succ k ih =>
    intro a ha
    rw [List.range'_succ]
    have hne : a + 1 ≠ 1 := by omega
    rw [breakEvenLoop_cons]
    simp only [if_neg hne, specCumulativeProfit_succ yp1 yp2 yp3 one_time a ha]
    by_cases hpos : 0 < specCumulativeProfit yp1 yp2 yp3 one_time (a + 1)
    · rw [if_pos hpos, List.find?_cons_of_pos _ (by simpa using hpos)]
    · rw [if_neg hpos, List.find?_cons_of_neg _ (by simpa using hpos)]
      have h2 : a + 1 + 1 = a + 2 := rfl
      simpa [h2] using ih (a + 1) (by omega)

/-- The break-even scan returns the first month in 1..36 whose cumulative
profit is strictly positive, and `none` when there is no such month. -/
theorem breakEvenMonth_eq_find (yp1 yp2 yp3 one_time : ℚ) :
    breakEvenMonth yp1 yp2 yp3 one_time =
      (List.range' 1 36).find? fun m =>
        decide (0 < specCumulativeProfit yp1 yp2 yp3 one_time m) := by
  unfold breakEvenMonth
  rw [show List.range' 1 36 = 1 :: List.range' 2 35 from rfl]
  have h1 : monthlyProfitAt yp1 yp2 yp3 1 - one_time =
      specCumulativeProfit yp1 yp2 yp3 one_time 1 := by
    unfold specCumulativeProfit
    rw [Finset.Icc_self, Finset.sum_singleton]
  rw [breakEvenLoop_cons]
  simp only [eq_self_iff_true, if_true, h1]
  by_cases hpos : 0 < specCumulativeProfit yp1 yp2 yp3 one_time 1
  · rw [if_pos hpos, List.find?_cons_of_pos _ (by simpa using hpos)]
  · rw [if_neg hpos, List.find?_cons_of_neg _ (by simpa using hpos)]
    simpa using breakEvenLoop_eq_find yp1 yp2 yp3 one_time 35 1 le_rfl

/-- C1: for every ROI scenario (any burn rate, one-time cost and scenario
configuration), the scenario result's `break_even_month` is the first
month index in 1..36 at which the cumulative profit — month 1's profit
minus the one-time costs, plus each later month's profit, the monthly
profit being the matching year's profit divided by 12 — is strictly
positive, and is `none` (unset) when the cumulative profit never becomes
strictly positive within the 36 months. -/
theorem break_even_month_first_positive (burn one_time : ℚ) (cfg : ScenarioCfg) :
    (mkScenarioResult burn one_time cfg).break_even_month =
      (List.range' 1 36).find? fun m =>
        decide (0 < specCumulativeProfit
          (mkScenarioResult burn one_time cfg).yearly_profit_1
          (mkScenarioResult burn one_time cfg).yearly_profit_2
          (mkScenarioResult burn one_time cfg).yearly_profit_3 one_time m) :=
  breakEvenMonth_eq_find _ _ _ _

/-- C8: the complete report is a dictionary whose entries are the
infrastructure breakdown (with its components list, of length 8), the ROI
analysis (with its three scenarios), the cost-optimization breakdown and
the resource summary, alongside the operational and one-time costs. -/
theorem complete_report_structure (ts : String) :
    ∃ rep infra roi opt rs,
      generate_complete_report defaultCalculator ts = some rep ∧
      calculate_total_infrastructure_cost defaultCalculator = some infra ∧
      generate_roi_analysis defaultCalculator = some roi ∧
      generate_cost_optimization_analysis defaultCalculator = some opt ∧
      generate_resource_summary defaultCalculator = some rs ∧
      rep.infrastructure_costs = infra ∧
      rep.roi_analysis = roi ∧
      rep.cost_optimization = opt ∧
      rep.resource_summary = rs ∧
      rep.operational_costs = calculate_operational_costs defaultCalculator ∧
      rep.one_time_costs = calculate_one_time_costs defaultCalculator ∧
      rep.timestamp = ts ∧
      rep.infrastructure_costs.components.length = 8 ∧
      rep.roi_analysis.scenarios.map Prod.fst =
        ["conservative", "moderate", "aggressive"] := by
  refine ⟨(generate_complete_report defaultCalculator ts).getD default,
    (calculate_total_infrastructure_cost defaultCalculator).getD default,
    (generate_roi_analysis defaultCalculator).getD default,
    (generate_cost_optimization_analysis defaultCalculator).getD default,
    (generate_resource_summary defaultCalculator).getD default,
    rfl, rfl, rfl, rfl, rfl, rfl, rfl, rfl, rfl, rfl, rfl, rfl, rfl, rfl⟩

/-- C6: no `calculate_*` or `generate_*` operation mutates the
calculator: in the state-passing view, every operation returns the state
it received, and after the full `generate_complete_report` the five
configuration tables still hold their construction-time values. -/
theorem operations_do_not_mutate (c : Calculator) (ty : String) (n : ℕ) (g : ℚ)
    (ts : String) :
    (calculate_instance_cost_st c ty n).2 = c ∧
    (calculate_storage_cost_st c g).2 = c ∧
    (calculate_livekit_sfu_cost_st c).2 = c ∧
    (calculate_api_services_cost_st c).2 = c ∧
    (calculate_database_cost_st c).2 = c ∧
    (calculate_redis_cost_st c).2 = c ∧
    (calculate_gateway_cost_st c).2 = c ∧
    (calculate_monitoring_cost_st c).2 = c ∧
    (calculate_bandwidth_cost_st c).2 = c ∧
    (calculate_storage_requirements_cost_st c).2 = c ∧
    (calculate_operational_costs_st c).2 = c ∧
    (calculate_one_time_costs_st c).2 = c ∧
    (calculate_total_infrastructure_cost_st c).2 = c ∧
    (generate_roi_analysis_st c).2 = c ∧
    (generate_cost_optimization_analysis_st c).2 = c ∧
    (generate_resource_summary_st c).2 = c ∧
    (generate_complete_report_st c ts).2.pricing = c.pricing ∧
    (generate_complete_report_st c ts).2.infrastructure = c.infrastructure ∧
    (generate_complete_report_st c ts).2.operational_costs = c.operational_costs ∧
    (generate_complete_report_st c ts).2.bandwidth_requirements = c.bandwidth_requirements ∧
    (generate_complete_report_st c ts).2.storage_requirements = c.storage_requirements :=
  ⟨rfl, rfl, rfl, rfl, rfl, rfl, rfl, rfl, rfl, rfl, rfl, rfl, rfl, rfl, rfl, rfl,
   rfl, rfl, rfl, rfl, rfl⟩

/-- C7: every cost routine is deterministic — two calculators with equal
configuration tables yield equal result dictionaries for every
`calculate_*` routine and for the full report — and within one report
generation every repeated internal call to
`calculate_total_infrastructure_cost` returns the same value `infra`:
the report's breakdown, the ROI burn rate, the optimization base cost and
the two per-unit resource costs are all derived from that one value. -/
theorem calculations_deterministic (c1 c2 : Calculator) (ty : String) (n : ℕ) (g : ℚ)
    (ts : String)
    (h1 : c1.pricing = c2.pricing)
    (h2 : c1.infrastructure = c2.infrastructure)
    (h3 : c1.operational_costs = c2.operational_costs)
    (h4 : c1.bandwidth_requirements = c2.bandwidth_requirements)
    (h5 : c1.storage_requirements = c2.storage_requirements) :
    (calculate_instance_cost c1.pricing ty n = calculate_instance_cost c2.pricing ty n ∧
     calculate_storage_cost c1.pricing g = calculate_storage_cost c2.pricing g ∧
     calculate_livekit_sfu_cost c1 = calculate_livekit_sfu_cost c2 ∧
     calculate_api_services_cost c1 = calculate_api_services_cost c2 ∧
     calculate_database_cost c1 = calculate_database_cost c2 ∧
     calculate_redis_cost c1 = calculate_redis_cost c2 ∧
     calculate_gateway_cost c1 = calculate_gateway_cost c2 ∧
     calculate_monitoring_cost c1 = calculate_monitoring_cost c2 ∧
     calculate_bandwidth_cost c1 = calculate_bandwidth_cost c2 ∧
     calculate_storage_requirements_cost c1 = calculate_storage_requirements_cost c2 ∧
     calculate_operational_costs c1 = calculate_operational_costs c2 ∧
     calculate_one_time_costs c1 = calculate_one_time_costs c2 ∧
     calculate_total_infrastructure_cost c1 = calculate_total_infrastructure_cost c2 ∧
     generate_complete_report c1 ts = generate_complete_report c2 ts) ∧
    (∀ rep infra, generate_complete_report c1 ts = some rep →
      calculate_total_infrastructure_cost c1 = some infra →
      rep.infrastructure_costs = infra ∧
      rep.roi_analysis.monthly_burn =
        (calculate_operational_costs c1).total_monthly + infra.total_monthly ∧
      rep.cost_optimization.base_monthly_cost = infra.total_monthly ∧
      rep.resource_summary.cost_per_participant_monthly = infra.total_monthly / 50000 ∧
      rep.resource_summary.cost_per_meeting_monthly = infra.total_monthly / 100) := by
  have hc : c1 = c2 := by
    obtain ⟨p1, i1, o1, b1, s1⟩ := c1
    obtain ⟨p2, i2, o2, b2, s2⟩ := c2
    simp only at h1 h2 h3 h4 h5
    subst h1; subst h2; subst h3; subst h4; subst h5
    rfl
  subst hc
  refine ⟨⟨rfl, rfl, rfl, rfl, rfl, rfl, rfl, rfl, rfl, rfl, rfl, rfl, rfl, rfl⟩, ?_⟩
  intro rep infra hrep hinfra
  simp only [generate_complete_report, bind, Option.bind_eq_some, Option.some.injEq] at hrep
  obtain ⟨infra0, hi0, roi, hroi, opt, hopt, rs, hrs, hrep⟩ := hrep
  rw [hinfra, Option.some.injEq] at hi0
  subst hi0
  subst hrep
  refine ⟨rfl, ?_, ?_, ?_, ?_⟩
  · simp only [generate_roi_analysis, bind, Option.bind_eq_some, Option.some.injEq] at hroi
    obtain ⟨infra1, hi1, hroi⟩ := hroi
    rw [hinfra, Option.some.injEq] at hi1
    subst hi1
    subst hroi
    rfl
  · simp only [generate_cost_optimization_analysis, bind, Option.bind_eq_some,
      Option.some.injEq] at hopt
    obtain ⟨infra2, hi2, hopt⟩ := hopt
    rw [hinfra, Option.some.injEq] at hi2
    subst hi2
    subst hopt
    rfl
  all_goals
    simp only [generate_resource_summary, bind, Option.bind_eq_some,
      Option.some.injEq] at hrs
  all_goals
    obtain ⟨lkSpec, hq1, apiR, hq2, dbSpec, hq3, pgbSpec, hq4, redisSpec, hq5, gwSpec, hq6,
      monR, hq7, infraA, hqA, infraB, hqB, hrs⟩ := hrs
  all_goals rw [hinfra, Option.some.injEq] at hqA hqB
  all_goals subst hqA
  all_goals subst hqB
  all_goals subst hrs
  · rfl
  · rfl

/-- Witness for `calculations_deterministic`: two copies of the
constructed calculator. -/
theorem calculations_deterministic_witness :
    calculate_instance_cost defaultCalculator.pricing "large" 3 =
      calculate_instance_cost defaultCalculator.pricing "large" 3 :=
  (calculations_deterministic defaultCalculator defaultCalculator "large" 3 7 "t"
    rfl rfl rfl rfl rfl).1.1

end GoMeet
